import Mathlib

/-
Verification of the email-classification pipeline
(src/email_classifier_template.py) against its specification.

Shallow embedding notes:
- A Python email dict is modelled by `Email`.  The field `idKey` is
  `Option (Option String)`: `none` means the dict has no "id" key at all
  (so `email["id"]` raises `KeyError`), `some none` means the key is
  present with value `None`, and `some (some s)` means the key maps to
  the string `s`.  Subject and body are total strings (the pipeline only
  ever embeds them into prompts and ticket contexts).
- The two external chat-completion calls are nondeterministic; their
  outcomes are supplied through an `LLMEnv` parameter.  `none` models
  every exception path of a call (network/auth error, or an unusable
  `content` on which `.strip()` raises), `some raw` models a call that
  returned the text `raw`.
- Side effects are reified: the mock sink functions become `SinkCall`
  values, and `process_email` returns, next to its result, the ordered
  trace of observable events (classifier call, responder call, sink
  calls).
- `process_email` returns `Except String ProcessingResult`: the
  `Except.error` case models the one exception that escapes the
  function (the `except` block logs an f-string referencing the local
  `email_id`, which is unbound when `email["id"]` itself raised
  `KeyError`, so that log line raises `NameError`).
-/

namespace EmailClassifier

/-- A Python email dict.  `idKey` distinguishes a missing "id" key
(`none`) from a present key holding `None` (`some none`) and from a
present string identifier (`some (some s)`). -/
structure Email where
  idKey : Option (Option String)
  subject : String
  body : String
deriving Repr, DecidableEq

/-- Outcomes of the two external chat-completion calls, one per call
site.  `none` stands for any exception inside the call (network, auth,
rate limit, malformed/None content); `some raw` is the returned text. -/
structure LLMEnv where
  classifyOut : Email → Option String
  respondOut : Email → String → Option String

/-- Python `str.strip()` (whitespace stripped from both ends), embedded
as a structural function on the character list so that it evaluates
inside the kernel. -/
def py_strip (s : String) : String :=
  ⟨((s.data.dropWhile Char.isWhitespace).reverse.dropWhile Char.isWhitespace).reverse⟩

/-- Python `str.lower()`, embedded as a character-wise map. -/
def py_lower (s : String) : String :=
  ⟨s.data.map Char.toLower⟩

/-- The set `self.valid_categories` from `EmailProcessor.__init__`. -/
def valid_categories : List String :=
  ["complaint", "inquiry", "feedback", "support_request", "other"]

/-- `EmailProcessor.classify_email`: consults the external call, then
post-processes with `.strip().lower()` and keeps the text only if it is
one of the valid categories; every exception path yields `None`.  The
success branch logs an f-string reading `email["id"]` before returning,
so a dict without an "id" key raises `KeyError` there, which the
function's own `except` catches, returning `None` even for a valid
label. -/
def classify_email (env : LLMEnv) (email : Email) : Option String :=
  match env.classifyOut email with
  | none => none
  | some raw =>
      let classification := py_lower (py_strip raw)
      if classification ∈ valid_categories then
        match email.idKey with
        | none => none
        | some _ => some classification
      else none

/-- The `every_category` template table from
`EmailProcessor.generate_response`. -/
def every_category : List (String × String) :=
  [("complaint", "Write a polite mail for a customer complaint."),
   ("inquiry", "write a polite mail for a customer inquiry. "),
   ("feedback", "write a polite mail for a feedback."),
   ("support_request", "write a polite mail for a customer support request."),
   ("other", "Write a generic response for uncategorized emails.")]

/-- `EmailProcessor.generate_response`: looks up the category template
(a `KeyError` on an unknown category is caught and becomes `None`),
makes the second external call, and returns the `.strip()`ed text; every
exception path yields `None`.  The success path logs an f-string reading
`email["id"]` before returning, so a dict without an "id" key raises
`KeyError` there, which the function's own `except` catches, returning
`None` even for a usable reply.  An empty returned text is NOT converted
to `None`. -/
def generate_response (env : LLMEnv) (email : Email) (classification : String) :
    Option String :=
  match every_category.lookup classification with
  | none => none
  | some _ =>
      match env.respondOut email classification with
      | none => none
      | some raw =>
          match email.idKey with
          | none => none
          | some _ => some (py_strip raw)

/-- One call to a mock sink function, with the arguments the source
passes. -/
inductive SinkCall where
  | send_complaint_response (email_id response : String)
  | send_standard_response (email_id response : String)
  | create_urgent_ticket (email_id category context : String)
  | create_support_ticket (email_id context : String)
deriving Repr, DecidableEq

/-- `EmailAutomationSystem._handle_complaint`: reply notification plus an
urgent ticket carrying the subject as context. -/
def handle_complaint (email_id subject response : String) : List SinkCall :=
  [SinkCall.send_complaint_response email_id response,
   SinkCall.create_urgent_ticket email_id "complaint" ("Subject: " ++ subject)]

/-- `EmailAutomationSystem._handle_inquiry`: standard reply only. -/
def handle_inquiry (email_id _subject response : String) : List SinkCall :=
  [SinkCall.send_standard_response email_id response]

/-- `EmailAutomationSystem._handle_feedback`: standard reply only. -/
def handle_feedback (email_id _subject response : String) : List SinkCall :=
  [SinkCall.send_standard_response email_id response]

/-- `EmailAutomationSystem._handle_support_request`: standard reply plus
a support ticket carrying the subject as context. -/
def handle_support_request (email_id subject response : String) : List SinkCall :=
  [SinkCall.send_standard_response email_id response,
   SinkCall.create_support_ticket email_id ("Subject: " ++ subject)]

/-- `EmailAutomationSystem._handle_other`: standard reply only. -/
def handle_other (email_id _subject response : String) : List SinkCall :=
  [SinkCall.send_standard_response email_id response]

/-- The `self.response_handlers` dispatch table from
`EmailAutomationSystem.__init__`, in source order. -/
def response_handlers : List (String × (String → String → String → List SinkCall)) :=
  [("complaint", handle_complaint),
   ("inquiry", handle_inquiry),
   ("feedback", handle_feedback),
   ("support_request", handle_support_request),
   ("other", handle_other)]

/-- The per-email result dict built by `process_email`. -/
structure ProcessingResult where
  email_id : Option String
  success : Bool
  classification : Option String
  response_sent : Bool
deriving Repr, DecidableEq

/-- The dict `process_email` initialises before the pipeline runs:
`{"email_id": None, "success": False, "classification": None,
"response_sent": False}`. -/
def initial_result : ProcessingResult :=
  { email_id := none, success := false, classification := none, response_sent := false }

/-- Observable events of one `process_email` run, in order. -/
inductive Event where
  | classify_call
  | respond_call (classification : String)
  | sink (c : SinkCall)
deriving Repr, DecidableEq

/-- `EmailAutomationSystem.process_email`.  Mirrors the source line by
line: build the initial result dict; read `email["id"]` (a missing key
raises `KeyError`, and the `except` block then raises `NameError` on the
unbound `email_id` — the `Except.error` case); a `None` identifier, a
failed classification, a failed response generation, and a missing
handler each raise a `ValueError` that the `except` block catches,
returning the untouched initial result; on full success the handler
runs, `response_sent` is set, and then `email_id`, `classification`,
`success` are filled in. -/
def process_email (env : LLMEnv) (email : Email) :
    Except String ProcessingResult × List Event :=
  match email.idKey with
  | none =>
      (Except.error "NameError: local variable email_id referenced before assignment", [])
  | some idVal =>
      match idVal with
      | none => (Except.ok initial_result, [])
      | some email_id =>
          match classify_email env email with
          | none => (Except.ok initial_result, [Event.classify_call])
          | some classification =>
              match generate_response env email classification with
              | none =>
                  (Except.ok initial_result,
                   [Event.classify_call, Event.respond_call classification])
              | some response =>
                  match response_handlers.lookup classification with
                  | none =>
                      (Except.ok initial_result,
                       [Event.classify_call, Event.respond_call classification])
                  | some handler =>
                      (Except.ok
                        { email_id := some email_id, success := true,
                          classification := some classification,
                          response_sent := true },
                       [Event.classify_call, Event.respond_call classification]
                         ++ (handler email_id email.subject response).map Event.sink)

/-- The batch loop of `run_demonstration`: one `process_email` per input
email, results appended in order; an exception escaping `process_email`
aborts the whole batch. -/
def process_batch (env : LLMEnv) : List Email → Except String (List ProcessingResult)
  | [] => Except.ok []
  | e :: rest =>
      match (process_email env e).1 with
      | Except.error s => Except.error s
      | Except.ok r =>
          match process_batch env rest with
          | Except.error s => Except.error s
          | Except.ok rs => Except.ok (r :: rs)

/-- Sink calls extracted, in order, from an event trace. -/
def sink_calls (tr : List Event) : List SinkCall :=
  tr.filterMap fun e =>
    match e with
    | Event.sink c => some c
    | _ => none

/-! Concrete fixtures used by counterexamples and witnesses. -/

/-- Environment in which both external calls raise. -/
def env_none : LLMEnv :=
  { classifyOut := fun _ => none, respondOut := fun _ _ => none }

/-- Environment in which classification returns "complaint" and response
generation returns a short reply. -/
def env_complaint_ok : LLMEnv :=
  { classifyOut := fun _ => some "complaint", respondOut := fun _ _ => some "We are sorry." }

/-- Environment in which classification returns "complaint" and the
response-generation call raises. -/
def env_complaint_norespond : LLMEnv :=
  { classifyOut := fun _ => some "complaint", respondOut := fun _ _ => none }

/-- Environment in which classification returns "complaint" and the
response-generation call returns an empty string. -/
def env_empty_reply : LLMEnv :=
  { classifyOut := fun _ => some "complaint", respondOut := fun _ _ => some "" }

/-- An email dict with no "id" key at all. -/
def email_no_id : Email :=
  { idKey := none, subject := "Broken product received", body := "damaged, demand a refund" }

/-- A well-formed email with identifier "001". -/
def email001 : Email :=
  { idKey := some (some "001"), subject := "Broken product received",
    body := "damaged, demand a refund" }

/-- The full-success result for email "001" classified as a complaint. -/
def result001 : ProcessingResult :=
  { email_id := some "001", success := true, classification := some "complaint",
    response_sent := true }

/-- The full-success event trace for email "001" classified as a
complaint with reply "We are sorry.". -/
def tr001 : List Event :=
  [Event.classify_call, Event.respond_call "complaint",
   Event.sink (SinkCall.send_complaint_response "001" "We are sorry."),
   Event.sink (SinkCall.create_urgent_ticket "001" "complaint"
     "Subject: Broken product received")]

/-- Environment in which classification returns "urgent", a label
outside the category enumeration. -/
def env_urgent : LLMEnv :=
  { classifyOut := fun _ => some "urgent", respondOut := fun _ _ => some "reply" }

/-! Helper lemmas shared by the claim theorems. -/

/-- Case analysis on one `process_email` run: either the `NameError`
escapes (missing "id" key), or the untouched initial result is returned,
or the run fully succeeded and the result and trace have the success
shape. -/
theorem process_email_cases (env : LLMEnv) (email : Email) :
    (email.idKey = none ∧
      process_email env email =
        (Except.error "NameError: local variable email_id referenced before assignment", [])) ∨
    (∃ tr, process_email env email = (Except.ok initial_result, tr) ∧
      tr.count Event.classify_call ≤ 1 ∧ sink_calls tr = []) ∨
    (∃ i c resp handler,
      email.idKey = some (some i) ∧
      classify_email env email = some c ∧
      generate_response env email c = some resp ∧
      response_handlers.lookup c = some handler ∧
      process_email env email =
        (Except.ok { email_id := some i, success := true,
                     classification := some c, response_sent := true },
         [Event.classify_call, Event.respond_call c]
           ++ (handler i email.subject resp).map Event.sink)) := by
  cases hid : email.idKey with
  | none =>
      exact Or.inl ⟨rfl, by simp only [process_email, hid]⟩
  | some idVal =>
      cases idVal with
      | none =>
          refine Or.inr (Or.inl ⟨[], ?_, by simp, rfl⟩)
          simp only [process_email, hid]
      | some i =>
          cases hc : classify_email env email with
          | none =>
              refine Or.inr (Or.inl ⟨[Event.classify_call], ?_, by simp, rfl⟩)
              simp only [process_email, hid, hc]
          | some c =>
              cases hg : generate_response env email c with
              | none =>
                  refine Or.inr (Or.inl
                    ⟨[Event.classify_call, Event.respond_call c], ?_, by simp, by
                      simp [sink_calls]⟩)
                  simp only [process_email, hid, hc, hg]
              | some resp =>
                  cases hh : response_handlers.lookup c with
                  | none =>
                      refine Or.inr (Or.inl
                        ⟨[Event.classify_call, Event.respond_call c], ?_, by simp, by
                          simp [sink_calls]⟩)
                      simp only [process_email, hid, hc, hg, hh]
                  | some handler =>
                      refine Or.inr (Or.inr ⟨i, c, resp, handler, rfl, rfl, hg, hh, ?_⟩)
                      simp only [process_email, hid, hc, hg, hh]

/-- Extracting the sink calls of a pure sink trace recovers the call
list. -/
theorem sink_calls_map (l : List SinkCall) : sink_calls (l.map Event.sink) = l := by
  induction l with
  | nil => rfl
  | cons a t ih =>
      simp only [List.map_cons, sink_calls, List.filterMap_cons] at *
      rw [ih]

/-- Extracting the sink calls of a success-shaped trace recovers the
handler's call list. -/
theorem sink_calls_success_trace (c : String) (l : List SinkCall) :
    sink_calls ([Event.classify_call, Event.respond_call c] ++ l.map Event.sink) = l := by
  have h := sink_calls_map l
  simp only [sink_calls, List.filterMap_append, List.filterMap_cons] at h ⊢
  simpa using h

/-- A non-`None` classification is a member of `valid_categories`. -/
theorem classify_email_mem (env : LLMEnv) (email : Email) (c : String)
    (h : classify_email env email = some c) : c ∈ valid_categories := by
  unfold classify_email at h
  cases hr : env.classifyOut email with
  | none => rw [hr] at h; exact absurd h (by simp)
  | some raw =>
      rw [hr] at h
      simp only [] at h
      by_cases hm : py_lower (py_strip raw) ∈ valid_categories
      · rw [if_pos hm] at h
        cases hid : email.idKey with
        | none => rw [hid] at h; exact absurd h (by simp)
        | some v =>
            rw [hid] at h
            cases h
            exact hm
      · rw [if_neg hm] at h
        exact absurd h (by simp)

/-- C1: refuted as stated — the code has a bug. For an email dict with
no "id" key, `email["id"]` raises `KeyError`; the `except` block then
evaluates a log f-string that references the local `email_id`, which is
unbound at that point, so a `NameError` escapes `process_email` and the
batch loop aborts instead of yielding one result per email. -/
theorem process_email_missing_id_key_exception_escapes :
    (process_email env_none email_no_id).1 =
      Except.error "NameError: local variable email_id referenced before assignment" ∧
    process_batch env_none [email001, email_no_id] =
      Except.error "NameError: local variable email_id referenced before assignment" :=
  ⟨rfl, rfl⟩

/-- C3: for every email whose "id" key holds `None`, `process_email`
returns the untouched failure result (`success = false`) and the
classifier is never invoked: identifier validation fails first. -/
theorem process_email_null_id_no_classifier (env : LLMEnv) (email : Email)
    (h : email.idKey = some none) :
    (process_email env email).1 = Except.ok initial_result ∧
    initial_result.success = false ∧
    Event.classify_call ∉ (process_email env email).2 := by
  have h1 : process_email env email = (Except.ok initial_result, []) := by
    simp only [process_email, h]
  rw [h1]
  exact ⟨rfl, rfl, by simp⟩

/-- Witness for C3 at a concrete email whose "id" key is `None`. -/
theorem process_email_null_id_no_classifier_witness :
    (process_email env_none { idKey := some none, subject := "s", body := "b" }).1 =
        Except.ok initial_result ∧
    initial_result.success = false ∧
    Event.classify_call ∉
      (process_email env_none { idKey := some none, subject := "s", body := "b" }).2 :=
  process_email_null_id_no_classifier env_none _ rfl

/-- C10: whenever `process_email` returns a result with
`success = false`, that result is the untouched initial dict: `email_id`
null, `classification` null, `response_sent` false — the result fields
are only assigned after dispatch completes. -/
theorem process_email_failure_result_is_initial (env : LLMEnv) (email : Email)
    (r : ProcessingResult) (h : (process_email env email).1 = Except.ok r)
    (hs : r.success = false) :
    r = initial_result ∧ r.email_id = none ∧ r.classification = none ∧
      r.response_sent = false := by
  rcases process_email_cases env email with ⟨_, hp⟩ | ⟨tr, hp, _, _⟩ |
    ⟨i, c, resp, hd, _, _, _, _, hp⟩
  · rw [hp] at h
    exact absurd h (by simp)
  · rw [hp] at h
    simp at h
    subst h
    exact ⟨rfl, rfl, rfl, rfl⟩
  · rw [hp] at h
    simp at h
    subst h
    simp at hs

/-- Witness for C10: an email with a valid identifier whose
classification fails still reports `email_id = None`. -/
theorem process_email_failure_result_is_initial_witness :
    initial_result = initial_result ∧ initial_result.email_id = none ∧
      initial_result.classification = none ∧ initial_result.response_sent = false :=
  process_email_failure_result_is_initial env_none email001 initial_result rfl rfl

/-- C9: with a fixed deterministic environment of stub outcomes,
processing the same email twice in one batch yields two identical
results — no state is carried across calls. -/
theorem process_email_deterministic_rerun (env : LLMEnv) (e : Email)
    (r1 r2 : ProcessingResult)
    (h : process_batch env [e, e] = Except.ok [r1, r2]) : r1 = r2 := by
  cases hp : (process_email env e).1 with
  | error s =>
      unfold process_batch at h
      rw [hp] at h
      exact absurd h (by simp)
  | ok r =>
      have h2 : process_batch env [e, e] = Except.ok [r, r] := by
        simp only [process_batch, hp]
      rw [h2] at h
      simp at h
      rw [← h.1]
      exact h.2

/-- Witness for C9 at a concrete fully-succeeding run. -/
theorem process_email_deterministic_rerun_witness : result001 = result001 :=
  process_email_deterministic_rerun env_complaint_ok email001 result001 result001 rfl

/-- C8: the defensive no-handler branch is unreachable — every non-None
classification lies in `valid_categories`, the dispatch-table keys
coincide exactly with `valid_categories`, and the handler lookup
succeeds. -/
theorem no_handler_branch_unreachable (env : LLMEnv) (email : Email) (c : String)
    (h : classify_email env email = some c) :
    c ∈ valid_categories ∧
    response_handlers.map Prod.fst = valid_categories ∧
    (response_handlers.lookup c).isSome = true := by
  have hm := classify_email_mem env email c h
  refine ⟨hm, rfl, ?_⟩
  simp only [valid_categories, List.mem_cons, List.not_mem_nil, or_false] at hm
  rcases hm with rfl | rfl | rfl | rfl | rfl <;> rfl

/-- Witness for C8 at a concrete classified email. -/
theorem no_handler_branch_unreachable_witness :
    "complaint" ∈ valid_categories ∧
    response_handlers.map Prod.fst = valid_categories ∧
    (response_handlers.lookup "complaint").isSome = true :=
  no_handler_branch_unreachable env_complaint_ok email001 "complaint" rfl

/-- C2: refuted in its category-retention half — when classification
succeeds but response generation fails, the source never assigns the
category into the result dict, so the reported classification is `None`,
not retained. -/
theorem classification_not_retained_counterexample :
    classify_email env_complaint_norespond email001 = some "complaint" ∧
    (process_email env_complaint_norespond email001).1 = Except.ok initial_result ∧
    initial_result.classification = none ∧ initial_result.success = false :=
  ⟨rfl, rfl, rfl, rfl⟩

/-- C2 (amended): `success = true` only if identifier validation,
classification, response generation, and handler lookup all succeeded;
and the reported classification is non-null if and only if the whole
pipeline succeeded (`success = true`) — on a response-generation failure
the already-known category is NOT retained. -/
theorem success_and_classification_fields (env : LLMEnv) (email : Email)
    (r : ProcessingResult) (h : (process_email env email).1 = Except.ok r) :
    (r.classification.isSome ↔ r.success = true) ∧
    (r.success = true →
      (∃ i, email.idKey = some (some i)) ∧
      (∃ c, classify_email env email = some c ∧
        generate_response env email c ≠ none ∧
        (response_handlers.lookup c).isSome = true)) := by
  rcases process_email_cases env email with ⟨_, hp⟩ | ⟨tr, hp, _, _⟩ |
    ⟨i, c, resp, hd, hid, hc, hg, hh, hp⟩
  · rw [hp] at h
    exact absurd h (by simp)
  · rw [hp] at h
    simp at h
    subst h
    exact ⟨by simp [initial_result], by simp [initial_result]⟩
  · rw [hp] at h
    simp at h
    subst h
    refine ⟨by simp, fun _ => ⟨⟨i, hid⟩, ⟨c, hc, ?_, ?_⟩⟩⟩
    · rw [hg]
      simp
    · rw [hh]
      rfl

/-- Witness for C2 (amended) at a run whose response generation fails. -/
theorem success_and_classification_fields_witness :
    (initial_result.classification.isSome ↔ initial_result.success = true) ∧
    (initial_result.success = true →
      (∃ i, email001.idKey = some (some i)) ∧
      (∃ c, classify_email env_complaint_norespond email001 = some c ∧
        generate_response env_complaint_norespond email001 c ≠ none ∧
        (response_handlers.lookup c).isSome = true)) :=
  success_and_classification_fields env_complaint_norespond email001 initial_result rfl

/-- C4: in every fully successful run, the sink calls are exactly the
handler sequence for the reported category: a reply plus a
subject-carrying ticket (urgent for complaint, standard for
support_request) — two sink calls; a reply only for inquiry, feedback
and other — one sink call. -/
theorem dispatch_sink_calls (env : LLMEnv) (email : Email)
    (r : ProcessingResult) (tr : List Event)
    (h : process_email env email = (Except.ok r, tr)) (hs : r.success = true) :
    ∃ i c resp,
      email.idKey = some (some i) ∧ r.classification = some c ∧
      generate_response env email c = some resp ∧
      (c = "complaint" →
        sink_calls tr =
          [SinkCall.send_complaint_response i resp,
           SinkCall.create_urgent_ticket i "complaint"
             ("Subject: " ++ email.subject)] ∧
        (sink_calls tr).length = 2) ∧
      (c = "support_request" →
        sink_calls tr =
          [SinkCall.send_standard_response i resp,
           SinkCall.create_support_ticket i ("Subject: " ++ email.subject)] ∧
        (sink_calls tr).length = 2) ∧
      ((c = "inquiry" ∨ c = "feedback" ∨ c = "other") →
        sink_calls tr = [SinkCall.send_standard_response i resp] ∧
        (sink_calls tr).length = 1) := by
  rcases process_email_cases env email with ⟨_, hp⟩ | ⟨tr2, hp, _, _⟩ |
    ⟨i, c, resp2, hd, hid, hc, hg, hh, hp⟩
  · rw [hp] at h
    exact absurd h (by simp)
  · rw [hp] at h
    simp only [Prod.mk.injEq, Except.ok.injEq] at h
    obtain ⟨h1, _⟩ := h
    subst h1
    simp [initial_result] at hs
  · rw [hp] at h
    simp only [Prod.mk.injEq, Except.ok.injEq] at h
    obtain ⟨h1, h2⟩ := h
    subst h1
    subst h2
    refine ⟨i, c, resp2, hid, rfl, hg, ?_, ?_, ?_⟩
    · rintro rfl
      have hl : response_handlers.lookup "complaint" = some handle_complaint := rfl
      rw [hl] at hh
      injection hh with hhd
      subst hhd
      rw [sink_calls_success_trace]
      exact ⟨rfl, rfl⟩
    · rintro rfl
      have hl : response_handlers.lookup "support_request" = some handle_support_request := rfl
      rw [hl] at hh
      injection hh with hhd
      subst hhd
      rw [sink_calls_success_trace]
      exact ⟨rfl, rfl⟩
    · rintro (rfl | rfl | rfl)
      · have hl : response_handlers.lookup "inquiry" = some handle_inquiry := rfl
        rw [hl] at hh
        injection hh with hhd
        subst hhd
        rw [sink_calls_success_trace]
        exact ⟨rfl, rfl⟩
      · have hl : response_handlers.lookup "feedback" = some handle_feedback := rfl
        rw [hl] at hh
        injection hh with hhd
        subst hhd
        rw [sink_calls_success_trace]
        exact ⟨rfl, rfl⟩
      · have hl : response_handlers.lookup "other" = some handle_other := rfl
        rw [hl] at hh
        injection hh with hhd
        subst hhd
        rw [sink_calls_success_trace]
        exact ⟨rfl, rfl⟩

/-- Witness for C4 at the fully successful complaint run of email
"001". -/
theorem dispatch_sink_calls_witness :
    ∃ i c resp,
      email001.idKey = some (some i) ∧ result001.classification = some c ∧
      generate_response env_complaint_ok email001 c = some resp ∧
      (c = "complaint" →
        sink_calls tr001 =
          [SinkCall.send_complaint_response i resp,
           SinkCall.create_urgent_ticket i "complaint"
             ("Subject: " ++ email001.subject)] ∧
        (sink_calls tr001).length = 2) ∧
      (c = "support_request" →
        sink_calls tr001 =
          [SinkCall.send_standard_response i resp,
           SinkCall.create_support_ticket i ("Subject: " ++ email001.subject)] ∧
        (sink_calls tr001).length = 2) ∧
      ((c = "inquiry" ∨ c = "feedback" ∨ c = "other") →
        sink_calls tr001 = [SinkCall.send_standard_response i resp] ∧
        (sink_calls tr001).length = 1) :=
  dispatch_sink_calls env_complaint_ok email001 result001 tr001 rfl rfl

/-- C5: `classify_email` post-processes the raw model text with
`.strip().lower()`; a returned category always equals the processed text
and lies in the five-category enumeration ("returns it only if ...");
for an email whose "id" key is present, a processed text inside the
enumeration is returned; it returns `None` (not an exception) when the
external call raises, when the processed text is outside the
enumeration, and also when the success-branch log's `email["id"]` read
raises `KeyError` (dict without an "id" key); the classifier call
happens at most once per run (no retry). -/
theorem classify_email_postprocess (env : LLMEnv) (email : Email) :
    (env.classifyOut email = none → classify_email env email = none) ∧
    (∀ c, classify_email env email = some c →
        ∃ raw, env.classifyOut email = some raw ∧
          c = py_lower (py_strip raw) ∧ c ∈ valid_categories) ∧
    (∀ raw v, env.classifyOut email = some raw →
        py_lower (py_strip raw) ∈ valid_categories →
        email.idKey = some v →
        classify_email env email = some (py_lower (py_strip raw))) ∧
    (∀ raw, env.classifyOut email = some raw →
        py_lower (py_strip raw) ∉ valid_categories →
        classify_email env email = none) ∧
    (email.idKey = none → classify_email env email = none) ∧
    (process_email env email).2.count Event.classify_call ≤ 1 := by
  refine ⟨?_, ?_, ?_, ?_, ?_, ?_⟩
  · intro h
    simp only [classify_email, h]
  · intro c h
    unfold classify_email at h
    cases hr : env.classifyOut email with
    | none => rw [hr] at h; exact absurd h (by simp)
    | some raw =>
        rw [hr] at h
        simp only [] at h
        by_cases hm : py_lower (py_strip raw) ∈ valid_categories
        · rw [if_pos hm] at h
          cases hid : email.idKey with
          | none => rw [hid] at h; exact absurd h (by simp)
          | some v =>
              rw [hid] at h
              cases h
              exact ⟨raw, rfl, rfl, hm⟩
        · rw [if_neg hm] at h
          exact absurd h (by simp)
  · intro raw v h hm hid
    simp only [classify_email, h, hid]
    rw [if_pos hm]
  · intro raw h hm
    simp only [classify_email, h]
    rw [if_neg hm]
  · intro hid
    cases hr : env.classifyOut email with
    | none => simp only [classify_email, hr]
    | some raw =>
        simp only [classify_email, hr, hid]
        by_cases hm : py_lower (py_strip raw) ∈ valid_categories
        · rw [if_pos hm]
        · rw [if_neg hm]
  · rcases process_email_cases env email with ⟨_, hp⟩ | ⟨tr, hp, hcount, _⟩ |
      ⟨i, c, resp, hd, _, _, _, _, hp⟩
    · rw [hp]
      simp
    · rw [hp]
      exact hcount
    · rw [hp]
      have h0 : (List.map Event.sink (hd i email.subject resp)).count Event.classify_call = 0 :=
        List.count_eq_zero_of_not_mem (by simp)
      simp [List.count_append, h0]

/-- Witness for C5: a raising call, an exact category on an email with
an "id" key, the out-of-range label "urgent", a valid label on a dict
without an "id" key, and a single classifier call in a full run. -/
theorem classify_email_postprocess_witness :
    classify_email env_none email001 = none ∧
    (∃ raw, env_complaint_ok.classifyOut email001 = some raw ∧
      "complaint" = py_lower (py_strip raw) ∧ "complaint" ∈ valid_categories) ∧
    classify_email env_complaint_ok email001 = some (py_lower (py_strip "complaint")) ∧
    classify_email env_urgent email001 = none ∧
    classify_email env_complaint_ok email_no_id = none ∧
    (process_email env_complaint_ok email001).2.count Event.classify_call ≤ 1 :=
  ⟨(classify_email_postprocess env_none email001).1 rfl,
   (classify_email_postprocess env_complaint_ok email001).2.1 "complaint" rfl,
   (classify_email_postprocess env_complaint_ok email001).2.2.1 "complaint"
      (some "001") rfl (by decide) rfl,
   (classify_email_postprocess env_urgent email001).2.2.2.1 "urgent" rfl (by decide),
   (classify_email_postprocess env_complaint_ok email_no_id).2.2.2.2.1 rfl,
   (classify_email_postprocess env_complaint_ok email001).2.2.2.2.2⟩

/-- C6: refuted in its empty-result half — an empty model reply is
returned as the empty string, not converted to `None`. -/
theorem generate_response_empty_counterexample :
    generate_response env_empty_reply email001 "complaint" = some "" ∧
    generate_response env_empty_reply email001 "complaint" ≠ none := by
  have h : generate_response env_empty_reply email001 "complaint" = some "" := rfl
  refine ⟨h, ?_⟩
  rw [h]
  simp

/-- C6 (amended): `generate_response` returns the stripped text verbatim
on success — including the empty string, which is not treated as a
failure; it returns `None` exactly on the exception paths: a raising
external call (covering an unusable `None` content), a template-lookup
`KeyError` on a category outside the template table (whose keys are
exactly the five categories), or a `KeyError` from the success-path
log's `email["id"]` read on a dict without an "id" key. -/
theorem generate_response_spec (env : LLMEnv) (email : Email) (c : String) :
    (∀ raw v, env.respondOut email c = some raw → every_category.lookup c ≠ none →
        email.idKey = some v →
        generate_response env email c = some (py_strip raw)) ∧
    (env.respondOut email c = none → generate_response env email c = none) ∧
    (every_category.lookup c = none → generate_response env email c = none) ∧
    (email.idKey = none → generate_response env email c = none) ∧
    every_category.map Prod.fst = valid_categories := by
  refine ⟨?_, ?_, ?_, ?_, rfl⟩
  · intro raw v h hl hid
    cases hll : every_category.lookup c with
    | none => exact absurd hll hl
    | some t => simp only [generate_response, hll, h, hid]
  · intro h
    cases hll : every_category.lookup c with
    | none => simp only [generate_response, hll]
    | some t => simp only [generate_response, hll, h]
  · intro h
    simp only [generate_response, h]
  · intro hid
    cases hll : every_category.lookup c with
    | none => simp only [generate_response, hll]
    | some t =>
        cases hro : env.respondOut email c with
        | none => simp only [generate_response, hll, hro]
        | some raw => simp only [generate_response, hll, hro, hid]

/-- Witness for C6 (amended): a successful reply on an email with an
"id" key, a raising call, a category outside the template table, and a
successful call on a dict without an "id" key. -/
theorem generate_response_spec_witness :
    generate_response env_complaint_ok email001 "complaint" =
        some (py_strip "We are sorry.") ∧
    generate_response env_none email001 "complaint" = none ∧
    generate_response env_complaint_ok email001 "urgent" = none ∧
    generate_response env_complaint_ok email_no_id "complaint" = none :=
  ⟨(generate_response_spec env_complaint_ok email001 "complaint").1
      "We are sorry." (some "001") rfl (by decide) rfl,
   (generate_response_spec env_none email001 "complaint").2.1 rfl,
   (generate_response_spec env_complaint_ok email001 "urgent").2.2.1 rfl,
   (generate_response_spec env_complaint_ok email_no_id "complaint").2.2.2.1 rfl⟩

/-- C7: on full success the result is exactly the email's identifier,
`success = true`, the category the classifier returned, and
`response_sent = true`; and every responder invocation in the trace
carries exactly the classifier's category, never a different one. -/
theorem full_success_result_shape (env : LLMEnv) (email : Email)
    (r : ProcessingResult) (tr : List Event)
    (h : process_email env email = (Except.ok r, tr)) (hs : r.success = true) :
    ∃ i c, email.idKey = some (some i) ∧ classify_email env email = some c ∧
      r = { email_id := some i, success := true, classification := some c,
            response_sent := true } ∧
      Event.respond_call c ∈ tr ∧
      (∀ c2, Event.respond_call c2 ∈ tr → c2 = c) := by
  rcases process_email_cases env email with ⟨_, hp⟩ | ⟨tr2, hp, _, _⟩ |
    ⟨i, c, resp, hd, hid, hc, hg, hh, hp⟩
  · rw [hp] at h
    exact absurd h (by simp)
  · rw [hp] at h
    simp only [Prod.mk.injEq, Except.ok.injEq] at h
    obtain ⟨h1, _⟩ := h
    subst h1
    simp [initial_result] at hs
  · rw [hp] at h
    simp only [Prod.mk.injEq, Except.ok.injEq] at h
    obtain ⟨h1, h2⟩ := h
    subst h1
    subst h2
    refine ⟨i, c, hid, hc, rfl, by simp, ?_⟩
    intro c2 hmem
    simp at hmem
    exact hmem

/-- Witness for C7 at the fully successful complaint run of email
"001". -/
theorem full_success_result_shape_witness :
    ∃ i c, email001.idKey = some (some i) ∧
      classify_email env_complaint_ok email001 = some c ∧
      result001 = { email_id := some i, success := true, classification := some c,
                    response_sent := true } ∧
      Event.respond_call c ∈ tr001 ∧
      (∀ c2, Event.respond_call c2 ∈ tr001 → c2 = c) :=
  full_success_result_shape env_complaint_ok email001 result001 tr001 rfl rfl

end EmailClassifier
